import Mathlib

/-!
Verification of the per-account message-deduplication and reply-dispatch
engine of the `flirtify-backend` repository, shallowly embedded in Lean 4.

The embedding follows `src/fanvue_responder.py` (class
`EnhancedFanvueAutoResponder`), `src/main.py` and
`src/multi_account_manager.py` (function `monitor_account_continuously`).

Python strings are `String`, compared lexicographically by code point
(`charsLe` below is exactly Python's `<=` on `str`).  Python's stable
`list.sort(key=...)` is `List.insertionSort`, which is stable.  The mutable
per-responder state (`last_message_timestamps[user]`, `processed_messages`)
is threaded explicitly as a `ConvState`.  Network calls are oracles passed
in as arguments.
-/

namespace Flirtify

/-- Lexicographic `<=` on code-point sequences: Python's string comparison. -/
def charsLe : List Char → List Char → Bool
  | [], _ => true
  | _ :: _, [] => false
  | a :: as, b :: bs =>
    if a.toNat < b.toNat then true
    else if b.toNat < a.toNat then false
    else charsLe as bs

/-- Python's `<=` on `str`. -/
def strLe (a b : String) : Bool := charsLe a.data b.data

/-- Python's `max` on two strings. -/
def strMax (a b : String) : String := if strLe a b then b else a

/-- Python's `str.strip()`: drop leading and trailing whitespace. -/
def pyStrip (s : String) : String :=
  ⟨((s.data.dropWhile Char.isWhitespace).reverse.dropWhile Char.isWhitespace).reverse⟩

/-- A chat message as returned by the transport: `uuid`, `sender.uuid`,
`text` and `sentAt` (ISO-8601, string-sortable), with the same `.get(_, "")`
defaults the Python code applies. -/
structure Message where
  uuid : String
  sender : String
  text : String
  sentAt : String
  deriving Repr, DecidableEq

/-- The per-(account × subscriber) conversation state of the responder:
`last_message_timestamps.get(user_uuid, "")` and `processed_messages`
(a Python `set`, modelled as a duplicate-free insertion-ordered list). -/
structure ConvState where
  lastTs : String
  processed : List String
  deriving Repr, DecidableEq

/-- The sort relation of `messages.sort(key=lambda x: x.get("sentAt", ""))`. -/
def tsRel (a b : Message) : Prop := strLe a.sentAt b.sentAt = true

instance : DecidableRel tsRel := fun a b =>
  inferInstanceAs (Decidable (strLe a.sentAt b.sentAt = true))

/-- Python's stable ascending `list.sort(key=lambda x: x.get("sentAt", ""))`:
a stable sort is unique, so the stable insertion sort used here returns
exactly what CPython's stable sort returns. -/
def sortByTs (messages : List Message) : List Message :=
  messages.insertionSort tsRel

/-- `max(msg.get("sentAt", "") for msg in messages)`, as a fold with the
empty string (the minimum) as the seed. -/
def maxTs (messages : List Message) : String :=
  messages.foldl (fun acc m => strMax acc m.sentAt) ""

/-- The membership test `message_id in self.processed_messages`. -/
def seenId (st : ConvState) (id : String) : Bool := st.processed.contains id

/-- Python `set.add`: insert the id if it is not already present. -/
def addSeen (st : ConvState) (id : String) : List String :=
  if st.processed.contains id then st.processed else st.processed ++ [id]

/-- The per-message filter of `check_for_unanswered_messages` (lines
467-483): skip the operator's own messages, blank messages, already
processed ids, and — only when a last-processed timestamp is recorded
(Python truthiness of the string) — messages not strictly newer than it. -/
def isNewSubscriberMessage (myUuid : String) (st : ConvState) (m : Message) : Bool :=
  !(m.sender == myUuid) && !(pyStrip m.text == "") && !(seenId st m.uuid) &&
    !(st.lastTs != "" && strLe m.sentAt st.lastTs)

/-- `check_for_unanswered_messages` (fanvue_responder.py lines 432-506) with
the fetched message list and the operator's uuid as inputs, returning the
list of messages to answer (at most one) and the updated state.

The early `if not messages: return []` is the `none` branch (only the
empty fetch has no last message).  The code re-sorts `new_subscriber_messages` before taking
the last element; filtering an already sorted list keeps it sorted and the
sort is stable, so the re-sort is the identity and is omitted here. -/
def resolve (myUuid : String) (messages : List Message) (st : ConvState) :
    List Message × ConvState :=
  match (sortByTs messages).getLast? with
  | none => ([], st)
  | some lastMsg =>
    if lastMsg.sender == myUuid then ([], st)
    else
      let newMsgs := (sortByTs messages).filter (isNewSubscriberMessage myUuid st)
      let newestTs := maxTs messages
      match newMsgs.getLast? with
      | none => ([], { st with lastTs := newestTs })
      | some latest =>
        ([latest], { lastTs := newestTs, processed := addSeen st latest.uuid })

/-- `ChatHistoryView.lastSenderIsOperator()`: whether the chronologically
last message (after the stable ascending sort by `sentAt`) was sent by the
operator. -/
def lastSenderIsOperator (myUuid : String) (messages : List Message) : Bool :=
  match (sortByTs messages).getLast? with
  | none => false
  | some m => m.sender == myUuid

/-- Python `l[-n:]`: the last `n` elements of a list. -/
def keepLast (n : Nat) (l : List String) : List String := l.drop (l.length - n)

/-- `cleanup_old_processed_messages` (fanvue_responder.py lines 70-82),
run once at responder construction: when more than 1000 ids are retained,
keep only the last 1000 of `list(self.processed_messages)`. -/
def cleanupOldProcessedMessages (st : ConvState) : ConvState :=
  if st.processed.length > 1000 then { st with processed := keepLast 1000 st.processed }
  else st

/-! ### The account-monitor loop (`monitor_account_continuously`) -/

/-- One iteration of the monitor loop either returns a processed-message
count from `monitor_single_cycle` or raises a cycle-level exception. -/
inductive CycleResult where
  | ok (count : Nat)
  | exn
  deriving Repr, DecidableEq

/-- The loop's bookkeeping: the `consecutive_errors` counter and whether the
loop has hit `break` (stopped). -/
structure MonitorState where
  consecutiveErrors : Nat
  stopped : Bool
  deriving Repr, DecidableEq

/-- One iteration of `monitor_account_continuously` (main.py lines 91-117,
identically multi_account_manager.py lines 89-111): a cycle returning a
positive count resets `consecutive_errors` to 0; a zero count leaves the
counter alone; an exception increments it and, at 5, breaks the loop. -/
def monitorStep (s : MonitorState) (r : CycleResult) : MonitorState :=
  match r with
  | .ok count => if count > 0 then { s with consecutiveErrors := 0 } else s
  | .exn =>
    let n := s.consecutiveErrors + 1
    if n ≥ 5 then { consecutiveErrors := n, stopped := true }
    else { s with consecutiveErrors := n }

/-- Run the monitor loop over a schedule of cycle results, returning the
final state and the number of cycles actually run (once stopped, no
further cycle runs). -/
def runMonitor : MonitorState → List CycleResult → MonitorState × Nat
  | s, [] => (s, 0)
  | s, r :: rs =>
    if s.stopped then (s, 0)
    else
      let t := runMonitor (monitorStep s r) rs
      (t.1, t.2 + 1)

/-! ### The reply dispatcher (`send_message`) -/

/-- The outcome of one POST attempt: success, an HTTP error with a status
code (`requests.exceptions.HTTPError`), or any other exception. -/
inductive AttemptResult where
  | ok
  | http (status : Nat)
  | exc
  deriving Repr, DecidableEq

/-- What a run of `send_message` did: its return value, how many POST
attempts it made, and the sleeps (in seconds) it performed. -/
structure SendTrace where
  success : Bool
  attemptsMade : Nat
  sleeps : List Nat
  deriving Repr, DecidableEq

/-- The `while retry_count < max_retries` loop of `send_message`
(fanvue_responder.py lines 187-221), with the transport as an oracle giving
the outcome of each attempt.  `fuel` is `max_retries - retry_count`.
A 429 HTTP error sleeps 60 seconds and retries; any other HTTP error or
exception returns `False` at once; success returns `True`; exhausting the
retries falls out of the loop and returns `False`. -/
def sendLoop (attempts : Nat → AttemptResult) (idx : Nat) : Nat → SendTrace
  | 0 => ⟨false, 0, []⟩
  | fuel + 1 =>
    match attempts idx with
    | .ok => ⟨true, 1, []⟩
    | .exc => ⟨false, 1, []⟩
    | .http status =>
      if status == 429 then
        let t := sendLoop attempts (idx + 1) fuel
        ⟨t.success, t.attemptsMade + 1, 60 :: t.sleeps⟩
      else ⟨false, 1, []⟩

/-- `send_message` with `max_retries = 3`. -/
def sendMessage (attempts : Nat → AttemptResult) : SendTrace :=
  sendLoop attempts 0 3

/-- One subscriber's worth of inputs to a monitoring cycle: the fetched
messages, the conversation state, and the transport behaviour its sends
will see. -/
structure SubTask where
  msgs : List Message
  st : ConvState
  attempts : Nat → AttemptResult

/-- The `for subscriber in subscribers` loop of `monitor_single_cycle`
(fanvue_responder.py lines 552-562): each subscriber is resolved, targets
are counted, and each target is dispatched with `send_message` whose boolean
result is only logged — a failed dispatch never aborts the loop. -/
def monitorSingleCycle (myUuid : String) (subs : List SubTask) : Nat × List SendTrace :=
  subs.foldl
    (fun acc sub =>
      let targets := (resolve myUuid sub.msgs sub.st).1
      if targets.isEmpty then acc
      else (acc.1 + targets.length, acc.2 ++ targets.map (fun _ => sendMessage sub.attempts)))
    (0, [])

/-! ### The reply generator (`generate_response_with_llm`) -/

/-- The body a completed Fal job's result fetch yields: either an `error`
field (re-raised as `Fal AI error: ...`) or the `output` text. -/
inductive FalFetch where
  | err (msg : String)
  | output (text : String)
  deriving Repr, DecidableEq

/-- The outcome of one status poll of the Fal queue: completed (with the
subsequent result fetch, which may itself raise), failed, still in
progress, or an HTTP error from the status request itself. -/
inductive PollOutcome where
  | completed (fetch : Except String FalFetch)
  | failed
  | inProgress
  | httpErr (status : Nat)
  deriving Repr

/-- The polling loop of `generate_response_with_fal_ai` (fanvue_responder.py
lines 383-426): poll every 2 seconds while `waited_time < 60`, i.e. at most
30 polls, then raise a timeout.  Errors are `Except.error` (a raised
exception). -/
def falPollLoop (poll : Nat → PollOutcome) : Nat → Nat → Except String String
  | _, 0 => .error "Fal AI request timed out"
  | i, fuel + 1 =>
    match poll i with
    | .completed (.error e) => .error e
    | .completed (.ok (.err e)) => .error ("Fal AI error: " ++ e)
    | .completed (.ok (.output o)) => .ok (pyStrip o)
    | .failed => .error "Fal AI request failed"
    | .httpErr status => .error ("HTTP " ++ toString status)
    | .inProgress => falPollLoop poll (i + 1) fuel

/-- `generate_response_with_fal_ai` (fanvue_responder.py lines 350-430):
submit the job (the submit call may raise), then poll. -/
def generateResponseWithFalAi (submit : Except String String)
    (poll : Nat → PollOutcome) : Except String String :=
  match submit with
  | .error e => .error e
  | .ok _ => falPollLoop poll 0 30

/-- `generate_response_with_openai` (fanvue_responder.py lines 306-348):
the chat-completion response either raises, has no choices (raises), or
yields content. -/
def generateResponseWithOpenai (response : Except String (Option String)) :
    Except String String :=
  match response with
  | .error e => .error e
  | .ok none => .error "No response content from stheno-nsfw API"
  | .ok (some content) => .ok (pyStrip content)

/-- The slice of a database account row `generate_response_with_llm` reads. -/
structure AccountSettings where
  llm : Option String
  systemPrompt : Option String
  deriving Repr, DecidableEq

/-- What `db_manager.get_fanvue_account_by_id` did: returned a row, returned
`None`, or raised. -/
inductive LookupResult where
  | found (a : AccountSettings)
  | missing
  | raised (e : String)
  deriving Repr, DecidableEq

/-- The hard-coded generic acknowledgement returned on any generation
failure (fanvue_responder.py line 304). -/
def fallbackReply (userHandle : String) : String :=
  "Thank you for your message, " ++ userHandle ++
    "! I appreciate you reaching out. How are you doing today? 💕"

/-- Model selection of `generate_response_with_llm` (lines 266-278): use the
freshly fetched row's `llm` when the lookup returned one, else the cached
account's `llm`, defaulting to `google/gemini-2.0-flash-001`. -/
def selectModel (lookup : LookupResult) (cachedLlm : Option String) : String :=
  match lookup with
  | .found a => a.llm.getD "google/gemini-2.0-flash-001"
  | _ => cachedLlm.getD "google/gemini-2.0-flash-001"

/-- `generate_response_with_llm` (fanvue_responder.py lines 263-304): the
whole body is wrapped in `try`; a raised lookup, a raising backend, a poll
timeout, an explicit `FAILED` status — any exception — is caught and the
fixed acknowledgement mentioning the subscriber's handle is returned.  The
prompt strings built from `userMessage` and `context` are absorbed into the
backend oracles. -/
def generateResponseWithLlm (lookup : LookupResult) (cachedLlm : Option String)
    (stheno : Except String (Option String)) (falSubmit : Except String String)
    (falPoll : Nat → PollOutcome) (userMessage userHandle context : String) : String :=
  match lookup with
  | .raised _ => fallbackReply userHandle
  | _ =>
    let model := selectModel lookup cachedLlm
    let result :=
      if model == "stheno-nsfw" then generateResponseWithOpenai stheno
      else generateResponseWithFalAi falSubmit falPoll
    match result with
    | .ok text => text
    | .error _ => fallbackReply userHandle

/-! ### The conversation-context builder (`build_conversation_context`) -/

/-- The per-message rendering of the context loop (fanvue_responder.py lines
240-251): blank messages are skipped; the operator's messages are labelled
`You:`, the subscriber's are labelled with the handle. -/
def labelLine (myUuid userHandle : String) (m : Message) : Option String :=
  let text := pyStrip m.text
  if text == "" then none
  else if m.sender == myUuid then some ("You: " ++ text)
  else some (userHandle ++ ": " ++ text)

/-- `recent_messages = sorted_messages[-20:] if len(sorted_messages) > 20
else sorted_messages` (line 238), on the ascending stable sort by `sentAt`. -/
def recentOf (hist : List Message) : List Message :=
  if (sortByTs hist).length > 20 then (sortByTs hist).drop ((sortByTs hist).length - 20)
  else sortByTs hist

/-- The rendered lines of `build_conversation_context`. -/
def buildContextLines (myUuid userHandle : String) (hist : List Message) : List String :=
  (recentOf hist).filterMap (labelLine myUuid userHandle)

/-- `build_conversation_context` (fanvue_responder.py lines 223-257). -/
def buildConversationContext (myUuid userHandle : String) (hist : List Message) : String :=
  if hist.isEmpty then "This is the start of your conversation."
  else
    let lines := buildContextLines myUuid userHandle hist
    if lines.isEmpty then "This is the start of your conversation."
    else "Conversation history:\n" ++ String.intercalate "\n" lines

/-- Number of maximal runs of equal adjacent entries. -/
def senderRuns : List String → Nat
  | [] => 0
  | [_] => 1
  | a :: b :: rest => (if a == b then 0 else 1) + senderRuns (b :: rest)

/-- The number of conversation turns of a history (glossary: a turn is a
maximal run of consecutive messages from one sender), read off the
chronologically ordered messages. -/
def countTurns (hist : List Message) : Nat :=
  senderRuns ((sortByTs hist).map Message.sender)

/-! ## Concrete inputs used by scenarios, counterexamples and witnesses -/

/-- Two subscriber messages whose `sentAt` fields are both missing (the
code's `.get("sentAt", "")` default). -/
def emptyTsHistory : List Message :=
  [⟨"a", "sub", "hi", ""⟩, ⟨"b", "sub", "yo", ""⟩]

/-- A history whose chronologically last message is the operator's. -/
def operatorLastHistory : List Message :=
  [⟨"1", "sub", "hi", "10:00"⟩, ⟨"2", "op", "hello", "10:01"⟩]

/-- A conversation state already holding 1000 distinct seen message ids. -/
def fullState : ConvState := ⟨"", (List.range 1000).map toString⟩

/-- A single-turn history of 21 non-blank subscriber messages. -/
def oneTurn21 : List Message :=
  (List.range 21).map (fun i => ⟨toString i, "sub", "hi", "t" ++ toString (i + 10)⟩)

/-! ## Order lemmas for the Python string comparison -/

theorem charsLe_refl (l : List Char) : charsLe l l = true := by
  induction l with
  | nil => rfl
  | cons a as ih => simp [charsLe, ih]

theorem charsLe_total (a b : List Char) : charsLe a b = true ∨ charsLe b a = true := by
  induction a generalizing b with
  | nil => exact Or.inl rfl
  | cons x xs ih =>
    cases b with
    | nil => exact Or.inr rfl
    | cons y ys =>
      simp only [charsLe]
      rcases Nat.lt_trichotomy x.toNat y.toNat with h | h | h
      · simp [h]
      · simpa [h, Nat.lt_irrefl] using ih ys
      · simp [h, Nat.lt_asymm h]

theorem charsLe_trans {a b c : List Char} (hab : charsLe a b = true)
    (hbc : charsLe b c = true) : charsLe a c = true := by
  induction a generalizing b c with
  | nil => rfl
  | cons x xs ih =>
    cases b with
    | nil => simp [charsLe] at hab
    | cons y ys =>
      cases c with
      | nil => simp [charsLe] at hbc
      | cons z zs =>
        simp only [charsLe] at hab hbc ⊢
        rcases Nat.lt_trichotomy x.toNat y.toNat with h₁ | h₁ | h₁ <;>
          rcases Nat.lt_trichotomy y.toNat z.toNat with h₂ | h₂ | h₂ <;>
          simp_all <;>
          first
          | omega
          | exact ih hab hbc

theorem strLe_refl (s : String) : strLe s s = true := charsLe_refl s.data

theorem strLe_total (a b : String) : strLe a b = true ∨ strLe b a = true :=
  charsLe_total a.data b.data

theorem strLe_trans {a b c : String} (hab : strLe a b = true) (hbc : strLe b c = true) :
    strLe a c = true := charsLe_trans hab hbc

theorem eq_empty_of_strLe_empty {s : String} (h : strLe s "" = true) : s = "" := by
  cases s with
  | mk data =>
    cases data with
    | nil => rfl
    | cons c cs => simp [strLe, charsLe] at h

theorem strLe_strMax_left (a b : String) : strLe a (strMax a b) = true := by
  unfold strMax
  split
  · assumption
  · exact strLe_refl a

theorem strLe_strMax_right (a b : String) : strLe b (strMax a b) = true := by
  unfold strMax
  split
  · exact strLe_refl b
  · rcases strLe_total a b with h | h
    · simp_all
    · exact h

instance : IsTrans Message tsRel :=
  ⟨fun _ _ _ hab hbc => strLe_trans hab hbc⟩

instance : IsTotal Message tsRel :=
  ⟨fun a b => strLe_total a.sentAt b.sentAt⟩

theorem strLe_foldl_strMax (msgs : List Message) (init : String) :
    strLe init (msgs.foldl (fun acc m => strMax acc m.sentAt) init) = true := by
  induction msgs generalizing init with
  | nil => exact strLe_refl init
  | cons hd tl ih =>
    exact strLe_trans (strLe_strMax_left init hd.sentAt) (ih (strMax init hd.sentAt))

theorem sentAt_le_foldl_strMax {m : Message} (msgs : List Message) (init : String) :
    m ∈ msgs → strLe m.sentAt (msgs.foldl (fun acc m => strMax acc m.sentAt) init) = true := by
  induction msgs generalizing init with
  | nil => intro h; cases h
  | cons hd tl ih =>
    intro h
    rcases List.mem_cons.mp h with rfl | hmem
    · exact strLe_trans (strLe_strMax_right init m.sentAt)
        (strLe_foldl_strMax tl (strMax init m.sentAt))
    · exact ih (strMax init hd.sentAt) hmem

theorem sentAt_le_maxTs {m : Message} {msgs : List Message} (h : m ∈ msgs) :
    strLe m.sentAt (maxTs msgs) = true :=
  sentAt_le_foldl_strMax msgs "" h

theorem maxTs_ne_empty {m : Message} {msgs : List Message} (h : m ∈ msgs)
    (hts : m.sentAt ≠ "") : maxTs msgs ≠ "" := by
  intro hmax
  exact hts (eq_empty_of_strLe_empty (hmax ▸ sentAt_le_maxTs h))

/-! ## Structural lemmas about `resolve` -/

/-- When the chronologically last fetched message is the operator's,
`check_for_unanswered_messages` returns before touching any state. -/
theorem resolve_of_lastSenderIsOperator {myUuid : String} {messages : List Message}
    (st : ConvState) (h : lastSenderIsOperator myUuid messages = true) :
    resolve myUuid messages st = ([], st) := by
  unfold lastSenderIsOperator at h
  unfold resolve
  cases hg : (sortByTs messages).getLast? with
  | none => rfl
  | some lastMsg =>
    rw [hg] at h
    have hb : lastMsg.sender = myUuid := by simpa using h
    simp [hb]

/-- Elements of the stable-sorted view are elements of the fetch. -/
theorem mem_of_mem_sortByTs {m : Message} {messages : List Message}
    (h : m ∈ sortByTs messages) : m ∈ messages :=
  (List.mem_insertionSort tsRel).mp h

/-- When a last-processed timestamp is recorded and no fetched message is
strictly newer than it, the resolution pass selects no target. -/
theorem resolve_fst_eq_nil_of_all_le {myUuid : String} {messages : List Message}
    {st : ConvState} (hts : st.lastTs ≠ "")
    (hall : ∀ m ∈ messages, strLe m.sentAt st.lastTs = true) :
    (resolve myUuid messages st).1 = [] := by
  unfold resolve
  cases hg : (sortByTs messages).getLast? with
  | none => rfl
  | some lastMsg =>
    by_cases hop : (lastMsg.sender == myUuid) = true
    · simp [hop]
    · have hfil : (sortByTs messages).filter (isNewSubscriberMessage myUuid st) = [] := by
        rw [List.filter_eq_nil_iff]
        intro m hm
        have h1 : strLe m.sentAt st.lastTs = true := hall m (mem_of_mem_sortByTs hm)
        simp [isNewSubscriberMessage, h1, bne_iff_ne, hts]
      simp [hop, hfil]

/-- A resolution pass either is an early return leaving everything alone,
or it sets `lastTs` to the maximum timestamp of the whole fetched view. -/
theorem resolve_cases (myUuid : String) (messages : List Message) (st : ConvState) :
    resolve myUuid messages st = ([], st) ∨
      ((resolve myUuid messages st).2).lastTs = maxTs messages := by
  unfold resolve
  cases hg : (sortByTs messages).getLast? with
  | none => exact Or.inl rfl
  | some lastMsg =>
    by_cases hop : (lastMsg.sender == myUuid) = true
    · simp [hop]
    · simp only [hop, if_false, Bool.false_eq_true]
      cases hfl : ((sortByTs messages).filter (isNewSubscriberMessage myUuid st)).getLast? with
      | none => simp [hfl]
      | some latest => simp [hfl]

/-- A resolution pass records at most one new id in `processed_messages`. -/
theorem resolve_processed_le (myUuid : String) (messages : List Message) (st : ConvState) :
    ((resolve myUuid messages st).2).processed.length ≤ st.processed.length + 1 := by
  unfold resolve
  cases hg : (sortByTs messages).getLast? with
  | none => simp
  | some lastMsg =>
    by_cases hop : (lastMsg.sender == myUuid) = true
    · simp [hop]
    · simp only [hop, if_false, Bool.false_eq_true]
      cases hfl : ((sortByTs messages).filter (isNewSubscriberMessage myUuid st)).getLast? with
      | none => simp [hfl]
      | some latest =>
        simp only [hfl]
        unfold addSeen
        split
        · simp
        · simp

/-- The initialisation-time cleanup truncates the retained-id list to at
most 1000 entries (and touches nothing below the bound). -/
theorem cleanup_length (st : ConvState) :
    (cleanupOldProcessedMessages st).processed.length = min st.processed.length 1000 := by
  unfold cleanupOldProcessedMessages keepLast
  split
  · simp only [List.length_drop]
    omega
  · omega

/-- Once the monitor loop has stopped, no further cycle runs. -/
theorem runMonitor_stopped_true (n : Nat) (l : List CycleResult) :
    runMonitor ⟨n, true⟩ l = (⟨n, true⟩, 0) := by
  cases l with
  | nil => rfl
  | cons r rs => simp [runMonitor]

/-- The fold of `monitor_single_cycle` visits every subscriber: its count is
the sum of the per-subscriber target counts, whatever the transports did. -/
theorem monitorSingleCycle_fst (myUuid : String) (subs : List SubTask) :
    (monitorSingleCycle myUuid subs).1 =
      (subs.map (fun sub => (resolve myUuid sub.msgs sub.st).1.length)).sum := by
  have key : ∀ (l : List SubTask) (acc : Nat × List SendTrace),
      (l.foldl
        (fun acc sub =>
          let targets := (resolve myUuid sub.msgs sub.st).1
          if targets.isEmpty then acc
          else (acc.1 + targets.length, acc.2 ++ targets.map (fun _ => sendMessage sub.attempts)))
        acc).1 =
      acc.1 + (l.map (fun sub => (resolve myUuid sub.msgs sub.st).1.length)).sum := by
    intro l
    induction l with
    | nil => intro acc; simp
    | cons hd tl ih =>
      intro acc
      simp only [List.foldl_cons, List.map_cons, List.sum_cons]
      by_cases he : (resolve myUuid hd.msgs hd.st).1.isEmpty
      · have hlen : (resolve myUuid hd.msgs hd.st).1.length = 0 := by
          simpa [List.isEmpty_iff_length_eq_zero] using he
        simp only [he, if_true]
        rw [ih]
        omega
      · simp only [he, if_false, Bool.false_eq_true]
        rw [ih]
        omega
  simpa [monitorSingleCycle] using key subs (0, [])

/-- `send_message` never makes more attempts than it has fuel for. -/
theorem sendLoop_attempts_le (attempts : Nat → AttemptResult) (idx fuel : Nat) :
    (sendLoop attempts idx fuel).attemptsMade ≤ fuel := by
  induction fuel generalizing idx with
  | zero => simp [sendLoop]
  | succ fuel ih =>
    unfold sendLoop
    cases h : attempts idx with
    | ok => simp
    | exc => simp
    | http status =>
      by_cases h429 : (status == 429) = true
      · simp only [h429, if_true]
        have := ih (idx + 1)
        omega
      · simp [h429]

/-- Every sleep `send_message` performs is the fixed 60-second cooldown. -/
theorem sendLoop_sleeps_sixty (attempts : Nat → AttemptResult) (idx fuel : Nat) :
    (sendLoop attempts idx fuel).sleeps =
      List.replicate (sendLoop attempts idx fuel).sleeps.length 60 := by
  induction fuel generalizing idx with
  | zero => rfl
  | succ fuel ih =>
    unfold sendLoop
    cases h : attempts idx with
    | ok => rfl
    | exc => rfl
    | http status =>
      by_cases h429 : (status == 429) = true
      · simp only [h429, if_true, List.length_cons, List.replicate_succ, List.cons.injEq,
          true_and]
        exact ih (idx + 1)
      · simp [h429]

/-- `send_message` re-attempts only after a 429: every attempt before the
last one it made saw a rate-limit signal. -/
theorem sendLoop_retry_only_429 (attempts : Nat → AttemptResult) (idx fuel : Nat) :
    ∀ j, j + 1 < (sendLoop attempts idx fuel).attemptsMade →
      attempts (idx + j) = .http 429 := by
  induction fuel generalizing idx with
  | zero => intro j hj; simp [sendLoop] at hj
  | succ fuel ih =>
    intro j hj
    unfold sendLoop at hj
    cases h : attempts idx with
    | ok => rw [h] at hj; simp at hj
    | exc => rw [h] at hj; simp at hj
    | http status =>
      rw [h] at hj
      by_cases h429 : (status == 429) = true
      · have hs : status = 429 := by simpa using h429
        cases j with
        | zero => simpa [hs] using h
        | succ j =>
          simp only [h429, if_true] at hj
          have := ih (idx + 1) j (by omega)
          have harg : idx + 1 + j = idx + (j + 1) := by omega
          rwa [harg] at this
      · simp [h429] at hj

/-- When the transport rate-limits every attempt, `send_message` burns all
its fuel, sleeping 60s after each attempt, and returns `False`. -/
theorem sendLoop_exhausted (attempts : Nat → AttemptResult) (idx fuel : Nat)
    (h : ∀ i < fuel, attempts (idx + i) = .http 429) :
    sendLoop attempts idx fuel = ⟨false, fuel, List.replicate fuel 60⟩ := by
  induction fuel generalizing idx with
  | zero => rfl
  | succ fuel ih =>
    have h0 : attempts idx = .http 429 := by simpa using h 0 (Nat.succ_pos fuel)
    unfold sendLoop
    rw [h0]
    have hrec : sendLoop attempts (idx + 1) fuel = ⟨false, fuel, List.replicate fuel 60⟩ := by
      apply ih
      intro i hi
      have harg : idx + 1 + i = idx + (i + 1) := by omega
      rw [harg]
      exact h (i + 1) (by omega)
    simp [hrec, List.replicate_succ]

/-- While the Fal queue keeps reporting `IN_PROGRESS`, the polling loop
spins down its fuel and raises the timeout. -/
theorem falPollLoop_timeout (poll : Nat → PollOutcome) (i fuel : Nat)
    (h : ∀ j, poll j = .inProgress) :
    falPollLoop poll i fuel = .error "Fal AI request timed out" := by
  induction fuel generalizing i with
  | zero => rfl
  | succ fuel ih =>
    unfold falPollLoop
    rw [h i]
    exact ih (i + 1)

/-- A first poll reporting `FAILED` raises at once. -/
theorem falPollLoop_failed (poll : Nat → PollOutcome) (i fuel : Nat)
    (h : poll i = .failed) :
    falPollLoop poll i (fuel + 1) = .error "Fal AI request failed" := by
  unfold falPollLoop
  rw [h]

/-! ## The claims -/

set_option maxRecDepth 10000

/-- C8: resolving the single-message history
`[{id 1, sender subscriber, text "hi", sentAt "10:00"}]` against the empty
conversation state returns exactly the target with id 1 and leaves the
state with `lastSeenTimestamp = "10:00"` and `seenMessageIds = {1}`. -/
theorem claim_scenario_first_contact :
    resolve "op" [⟨"1", "sub", "hi", "10:00"⟩] ⟨"", []⟩ =
      ([⟨"1", "sub", "hi", "10:00"⟩], ⟨"10:00", ["1"]⟩) := by
  decide

/-- C2: for every non-empty history whose chronologically last message
(after the stable ascending sort by sent-at) was sent by the operator,
resolution returns no reply target, for every conversation state. -/
theorem claim_operator_last_no_target (myUuid : String) (messages : List Message)
    (st : ConvState) (hne : messages ≠ [])
    (hop : lastSenderIsOperator myUuid messages = true) :
    (resolve myUuid messages st).1 = [] := by
  rw [resolve_of_lastSenderIsOperator st hop]

/-- Witness for C2 at a concrete operator-last history. -/
theorem claim_operator_last_no_target_witness :
    (resolve "op" operatorLastHistory ⟨"", []⟩).1 = [] :=
  claim_operator_last_no_target "op" operatorLastHistory ⟨"", []⟩ (by decide) (by decide)

/-- C10: when resolution returns no target because the fetched view is
empty or because the chronologically last message was the operator's, the
conversation state is returned entirely unchanged. -/
theorem claim_early_return_frame (myUuid : String) (messages : List Message)
    (st : ConvState)
    (h : messages = [] ∨ lastSenderIsOperator myUuid messages = true) :
    resolve myUuid messages st = ([], st) := by
  rcases h with rfl | hop
  · rfl
  · exact resolve_of_lastSenderIsOperator st hop

/-- Witness for C10 at a concrete operator-last history and non-trivial state. -/
theorem claim_early_return_frame_witness :
    resolve "op" operatorLastHistory ⟨"09:00", ["z"]⟩ = ([], ⟨"09:00", ["z"]⟩) :=
  claim_early_return_frame "op" operatorLastHistory ⟨"09:00", ["z"]⟩ (Or.inr (by decide))

/-- C1 counterexample: on a two-message subscriber history whose sent-at
timestamps are both missing (the empty string), the first resolution
selects the later message, yet the second resolution on the same unchanged
history still selects a target — because the recorded last-seen timestamp
is the empty string, which the code treats as "no timestamp recorded". -/
theorem claim_idempotence_cx :
    (resolve "op" emptyTsHistory ((resolve "op" emptyTsHistory ⟨"", []⟩).2)).1 ≠ [] := by
  decide

/-- C1 amended: resolution is idempotent provided the fetched history is
empty or some fetched message has a non-empty sent-at timestamp; running
the resolution a second time on the same unchanged history with the
updated state then yields no target. -/
theorem claim_idempotence_amended (myUuid : String) (messages : List Message)
    (st : ConvState) (h : messages = [] ∨ ∃ m ∈ messages, m.sentAt ≠ "") :
    (resolve myUuid messages ((resolve myUuid messages st).2)).1 = [] := by
  rcases h with rfl | ⟨m, hm, hts⟩
  · rfl
  · rcases resolve_cases myUuid messages st with heq | hmax
    · simp [heq]
    · apply resolve_fst_eq_nil_of_all_le
      · rw [hmax]
        exact maxTs_ne_empty hm hts
      · intro x hx
        rw [hmax]
        exact sentAt_le_maxTs hx

/-- Witness for C1 (amended) at a concrete timestamped history. -/
theorem claim_idempotence_amended_witness :
    (resolve "op" [⟨"1", "sub", "hi", "10:00"⟩]
      ((resolve "op" [⟨"1", "sub", "hi", "10:00"⟩] ⟨"", []⟩).2)).1 = [] :=
  claim_idempotence_amended "op" [⟨"1", "sub", "hi", "10:00"⟩] ⟨"", []⟩
    (Or.inr ⟨⟨"1", "sub", "hi", "10:00"⟩, by decide, by decide⟩)

/-- C5 counterexample: a first call whose view reaches "10:05" followed by
a second call whose fetched view only reaches "10:03" drags the stored
last-seen timestamp backwards, so it is not monotone over arbitrary views. -/
theorem claim_lastTs_monotone_cx :
    ((resolve "op" [⟨"m0", "sub", "hey", "10:05"⟩] ⟨"", []⟩).2).lastTs = "10:05" ∧
    ((resolve "op" [⟨"m1", "sub", "hi", "10:03"⟩]
        ((resolve "op" [⟨"m0", "sub", "hey", "10:05"⟩] ⟨"", []⟩).2)).2).lastTs = "10:03" ∧
    strLe "10:05" "10:03" = false := by
  decide

/-- C5 amended: the stored last-seen timestamp is non-decreasing across a
resolution call provided the fetched view's maximum sent-at timestamp is at
least the stored timestamp (in particular whenever views only grow); an
arbitrary smaller view can decrease it. -/
theorem claim_lastTs_monotone_amended (myUuid : String) (messages : List Message)
    (st : ConvState) (h : messages ≠ [] → strLe st.lastTs (maxTs messages) = true) :
    strLe st.lastTs (((resolve myUuid messages st).2).lastTs) = true := by
  by_cases hem : messages = []
  · subst hem
    exact strLe_refl st.lastTs
  · rcases resolve_cases myUuid messages st with heq | hmax
    · rw [heq]
      exact strLe_refl st.lastTs
    · rw [hmax]
      exact h hem

/-- Witness for C5 (amended) at a concrete growing view. -/
theorem claim_lastTs_monotone_amended_witness :
    strLe "09:00" (((resolve "op" [⟨"1", "sub", "hi", "10:00"⟩] ⟨"09:00", []⟩).2).lastTs)
      = true :=
  claim_lastTs_monotone_amended "op" [⟨"1", "sub", "hi", "10:00"⟩] ⟨"09:00", []⟩
    (fun _ => by decide)

/-- C4 counterexample: from a conversation state already holding exactly
1000 seen ids (the configured bound), one further resolution pass pushes
the set to 1001 entries — resolution never evicts; the only truncation is
the initialisation-time cleanup. -/
theorem claim_seen_bound_cx :
    fullState.processed.length = 1000 ∧
    ((resolve "op" [⟨"x", "sub", "hi", "10:00"⟩] fullState).2).processed.length = 1001 := by
  constructor
  · decide
  · decide

/-- C4 amended: the 1000-entry bound is enforced only by the
initialisation-time cleanup, which truncates the retained set to
`min size 1000` entries (keeping the last 1000 of the set's iteration
order, not necessarily the oldest additions); a resolution pass itself
never evicts and grows the seen set by at most one id. -/
theorem claim_seen_bound_amended (myUuid : String) (messages : List Message)
    (st : ConvState) :
    (cleanupOldProcessedMessages st).processed.length = min st.processed.length 1000 ∧
    ((resolve myUuid messages st).2).processed.length ≤ st.processed.length + 1 :=
  ⟨cleanup_length st, resolve_processed_le myUuid messages st⟩

/-- C3 counterexample: after one cycle exception followed by a successful
cycle that processed zero messages, the consecutive-failure counter is
still 1 — a zero-message success does not reset it to zero. -/
theorem claim_failure_reset_cx :
    runMonitor ⟨0, false⟩ [.exn, .ok 0] = (⟨1, false⟩, 2) := by
  decide

/-- C3 amended: the monitor stops after 5 consecutive cycle-level
exceptions and runs no further cycles whatever is scheduled afterwards; a
successful cycle resets the consecutive-failure counter to zero only when
it processed at least one message, after which failures count from zero
again; a zero-message success leaves the counter unchanged. -/
theorem claim_monitor_stop_amended (k : Nat) (rest : List CycleResult) :
    runMonitor ⟨0, false⟩ (.exn :: .exn :: .exn :: .exn :: .exn :: rest) = (⟨5, true⟩, 5) ∧
    runMonitor ⟨0, false⟩
        (.exn :: .exn :: .exn :: .exn :: .ok (k + 1) ::
          .exn :: .exn :: .exn :: .exn :: .exn :: rest) = (⟨5, true⟩, 10) ∧
    monitorStep ⟨3, false⟩ (.ok 0) = ⟨3, false⟩ := by
  refine ⟨?_, ?_, rfl⟩ <;>
    simp [runMonitor, monitorStep, runMonitor_stopped_true]

/-- C6: `send_message` makes at most 3 attempts; every sleep is the fixed
60-second cooldown; it re-attempts only after a rate-limit (429) signal;
three straight rate-limits exhaust the retries and return failure (not an
exception); any other HTTP error or exception on the first attempt fails
immediately with no retry and no sleep; and the per-cycle subscriber loop
processes every subscriber — its count is the full per-subscriber sum
regardless of what the transport did to any send. -/
theorem claim_dispatch_retry (attempts : Nat → AttemptResult) :
    (sendMessage attempts).attemptsMade ≤ 3 ∧
    (sendMessage attempts).sleeps =
      List.replicate (sendMessage attempts).sleeps.length 60 ∧
    (∀ j, j + 1 < (sendMessage attempts).attemptsMade → attempts j = .http 429) ∧
    ((∀ i < 3, attempts i = .http 429) → sendMessage attempts = ⟨false, 3, [60, 60, 60]⟩) ∧
    (∀ status, status ≠ 429 → attempts 0 = .http status →
      sendMessage attempts = ⟨false, 1, []⟩) ∧
    (attempts 0 = .exc → sendMessage attempts = ⟨false, 1, []⟩) ∧
    (∀ (myUuid : String) (subs : List SubTask),
      (monitorSingleCycle myUuid subs).1 =
        (subs.map (fun sub => (resolve myUuid sub.msgs sub.st).1.length)).sum) := by
  refine ⟨sendLoop_attempts_le attempts 0 3, sendLoop_sleeps_sixty attempts 0 3,
    ?_, ?_, ?_, ?_, monitorSingleCycle_fst⟩
  · intro j hj
    simpa using sendLoop_retry_only_429 attempts 0 3 j hj
  · intro h
    have := sendLoop_exhausted attempts 0 3 (by intro i hi; simpa using h i hi)
    simpa [sendMessage, List.replicate] using this
  · intro status hne h0
    have h429 : (status == 429) = false := by simpa using hne
    unfold sendMessage sendLoop
    rw [h0]
    simp [h429]
  · intro h0
    unfold sendMessage sendLoop
    rw [h0]

/-- Witness for C6: three straight rate-limits return failure after three
60-second sleeps; a non-429 exception fails immediately. -/
theorem claim_dispatch_retry_witness :
    sendMessage (fun _ => .http 429) = ⟨false, 3, [60, 60, 60]⟩ ∧
    sendMessage (fun _ => .exc) = ⟨false, 1, []⟩ :=
  ⟨(claim_dispatch_retry (fun _ => .http 429)).2.2.2.1 (fun _ _ => rfl),
   (claim_dispatch_retry (fun _ => .exc)).2.2.2.2.2.1 rfl⟩

/-- C7: whenever the generation backend fails in any way — the
account-settings lookup raises, the selected backend returns an error, the
Fal submit raises, every poll stays `IN_PROGRESS` until the 60-second
budget times out, a poll reports `FAILED`, or the chat-completion response
has no choices — `generate_response_with_llm` does not raise: it returns
the fixed generic acknowledgement string, which mentions the subscriber's
handle. -/
theorem claim_generation_fallback (lookup : LookupResult) (cachedLlm : Option String)
    (stheno : Except String (Option String)) (falSubmit : Except String String)
    (falPoll : Nat → PollOutcome) (userMessage userHandle context : String) :
    ((∃ e, lookup = .raised e) →
      generateResponseWithLlm lookup cachedLlm stheno falSubmit falPoll
        userMessage userHandle context = fallbackReply userHandle) ∧
    ((∃ e, (if selectModel lookup cachedLlm == "stheno-nsfw"
        then generateResponseWithOpenai stheno
        else generateResponseWithFalAi falSubmit falPoll) = .error e) →
      generateResponseWithLlm lookup cachedLlm stheno falSubmit falPoll
        userMessage userHandle context = fallbackReply userHandle) ∧
    ((∃ e, falSubmit = .error e) →
      ∃ e, generateResponseWithFalAi falSubmit falPoll = .error e) ∧
    (∀ r, falSubmit = .ok r → (∀ j, falPoll j = .inProgress) →
      generateResponseWithFalAi falSubmit falPoll = .error "Fal AI request timed out") ∧
    (∀ r, falSubmit = .ok r → falPoll 0 = .failed →
      generateResponseWithFalAi falSubmit falPoll = .error "Fal AI request failed") ∧
    (stheno = .ok none →
      generateResponseWithOpenai stheno = .error "No response content from stheno-nsfw API") ∧
    (∃ pre post, fallbackReply userHandle = pre ++ userHandle ++ post) := by
  refine ⟨?_, ?_, ?_, ?_, ?_, ?_, ?_⟩
  · rintro ⟨e, rfl⟩
    rfl
  · rintro ⟨e, he⟩
    cases lookup with
    | raised e' => rfl
    | found a =>
      simp only [generateResponseWithLlm]
      rw [he]
    | missing =>
      simp only [generateResponseWithLlm]
      rw [he]
  · rintro ⟨e, rfl⟩
    exact ⟨e, rfl⟩
  · rintro r rfl hall
    exact falPollLoop_timeout falPoll 0 30 hall
  · rintro r rfl h0
    exact falPollLoop_failed falPoll 0 29 h0
  · rintro rfl
    rfl
  · exact ⟨"Thank you for your message, ",
      "! I appreciate you reaching out. How are you doing today? 💕", rfl⟩

/-- Witness for C7: a raised account-settings lookup yields the fixed
acknowledgement for the handle `alex`. -/
theorem claim_generation_fallback_witness :
    generateResponseWithLlm (.raised "db down") none (.ok none) (.error "boom")
      (fun _ => .inProgress) "hi" "alex" "" = fallbackReply "alex" :=
  (claim_generation_fallback (.raised "db down") none (.ok none) (.error "boom")
    (fun _ => .inProgress) "hi" "alex" "").1 ⟨"db down", rfl⟩

/-- C9 counterexample: a single-turn history of 21 non-blank subscriber
messages (one maximal run by one sender, so well within "the last 20
turns") renders only 20 context lines — the code caps at the last 20
*messages*, not the last 20 turns. -/
theorem claim_context_cap_cx :
    countTurns oneTurn21 = 1 ∧
    (oneTurn21.filter (fun m => !(pyStrip m.text == ""))).length = 21 ∧
    (buildContextLines "op" "fan" oneTurn21).length = 20 := by
  refine ⟨by decide, by decide, by decide⟩

/-- C9 amended: the context passed to the generator renders, oldest-first
(the retained slice is sorted ascending by sent-at), the last 20 *messages*
of the chronologically sorted history, dropping blank messages after the
cap, each line labelled by speaker (`You:` for the operator, the handle for
the subscriber); hence at most 20 lines. -/
theorem claim_context_spec (myUuid userHandle : String) (hist : List Message) :
    (buildContextLines myUuid userHandle hist).length ≤ 20 ∧
    List.Pairwise tsRel (recentOf hist) ∧
    (∀ line ∈ buildContextLines myUuid userHandle hist,
      ∃ m, m ∈ hist ∧ pyStrip m.text ≠ "" ∧
        ((m.sender = myUuid ∧ line = "You: " ++ pyStrip m.text) ∨
         (m.sender ≠ myUuid ∧ line = userHandle ++ ": " ++ pyStrip m.text))) := by
  refine ⟨?_, ?_, ?_⟩
  · have h1 : (buildContextLines myUuid userHandle hist).length ≤ (recentOf hist).length :=
      List.length_filterMap_le _ _
    have h2 : (recentOf hist).length ≤ 20 := by
      unfold recentOf
      split
      · simp only [List.length_drop]
        omega
      · omega
    omega
  · have hs : List.Pairwise tsRel (sortByTs hist) := List.sorted_insertionSort tsRel hist
    unfold recentOf
    split
    · exact List.Pairwise.sublist (List.drop_sublist _ _) hs
    · exact hs
  · intro line hline
    rcases List.mem_filterMap.mp hline with ⟨m, hm, hlab⟩
    have hmem : m ∈ hist := by
      apply mem_of_mem_sortByTs
      unfold recentOf at hm
      revert hm
      split
      · exact fun hm => List.mem_of_mem_drop hm
      · exact fun hm => hm
    unfold labelLine at hlab
    by_cases hb : (pyStrip m.text == "") = true
    · simp [hb] at hlab
    · have hbne : pyStrip m.text ≠ "" := by simpa using hb
      by_cases hsend : (m.sender == myUuid) = true
      · refine ⟨m, hmem, hbne, Or.inl ⟨by simpa using hsend, ?_⟩⟩
        simp only [hb, if_false, hsend, if_true, Bool.false_eq_true] at hlab
        exact (Option.some.injEq _ _ ▸ hlab).symm
      · refine ⟨m, hmem, hbne, Or.inr ⟨by simpa using hsend, ?_⟩⟩
        simp only [hb, if_false, hsend, Bool.false_eq_true] at hlab
        exact (Option.some.injEq _ _ ▸ hlab).symm

/-- Witness for C9 (amended): the rendered line of a one-message history is
the handle-labelled text. -/
theorem claim_context_spec_witness :
    ∃ m, m ∈ [(⟨"1", "sub", "hi", "10:00"⟩ : Message)] ∧ pyStrip m.text ≠ "" ∧
      ((m.sender = "op" ∧ "fan: hi" = "You: " ++ pyStrip m.text) ∨
       (m.sender ≠ "op" ∧ "fan: hi" = "fan" ++ ": " ++ pyStrip m.text)) :=
  (claim_context_spec "op" "fan" [⟨"1", "sub", "hi", "10:00"⟩]).2.2 "fan: hi" (by decide)

end Flirtify
